import Mathlib

/-
Verification of the OmniGibson action-primitive and VR-utility layer.

The definitions below are a shallow embedding of
src/igibson/action_primitives/behavior_discrete_action_primitives.py and
src/omnigibson/utils/vr_utils.py.  Machine floats are modelled as exact
rationals; numpy arrays indexed by action dimension are modelled as
functions from Nat to Rat; Python generators are modelled as functions
returning the list of yielded commands together with an explicit outcome.
-/

namespace BDAP

/-- Positions are triples of rationals (x, y, z). -/
def Vec3 : Type := ℚ × ℚ × ℚ

/-- Quaternions in XYZW order, as used throughout the source. -/
def Quat : Type := ℚ × ℚ × ℚ × ℚ

/-! ## Navigation pose check (analysis of the prologue of BehaviorActionPrimitives._navigate_to)

The source computes
  moved_distance = np.abs(np.sum(self.initial_pos_dict[object_name] - obj_pos))
which is the absolute value of the SUM of the componentwise differences,
not a Euclidean distance, and compares it against the threshold 1e-1.
The check only runs when obj_pose_check is set, the task is
putting_away_Halloween_decorations, the object is one of the two pumpkins,
and an initial position has already been recorded for it. -/

/-- Embedding of the expression np.abs(np.sum(initial - current)) from _navigate_to. -/
def moved_distance (initial current : Vec3) : ℚ :=
  |(initial.1 - current.1) + (initial.2.1 - current.2.1) + (initial.2.2 - current.2.2)|

/-- Squared Euclidean distance, used to state what the spec's wording asks for. -/
def distSq (a b : Vec3) : ℚ :=
  (a.1 - b.1) ^ 2 + (a.2.1 - b.2.1) ^ 2 + (a.2.2 - b.2.2) ^ 2

/-- The threshold moved_distance_threshold = 1e-1 from _navigate_to. -/
def moved_distance_threshold : ℚ := 1 / 10

/-- Outcome of the pose-check prologue of _navigate_to: either an
ActionPrimitiveError with reason PRE_CONDITION_ERROR carrying the object name,
or control reaches the call to planner.plan_base_motion. -/
inductive NavCheckOutcome where
  | preConditionError (objName : String)
  | proceedToPlanning
  deriving DecidableEq, Repr

/-- Embedding of lines 539-555 of _navigate_to.  The initialPos argument is
initial_pos_dict.get(object_name) and objPos is the object's current position. -/
def navigate_pose_check (objPoseCheck : Bool) (taskName : String) (objName : String)
    (initialPos : Option Vec3) (objPos : Vec3) : NavCheckOutcome :=
  if objPoseCheck && (taskName = "putting_away_Halloween_decorations" : Bool) then
    if (objName = "pumpkin.n.02_1" : Bool) || (objName = "pumpkin.n.02_2" : Bool) then
      match initialPos with
      | none => NavCheckOutcome.proceedToPlanning
      | some p =>
          if moved_distance p objPos > moved_distance_threshold then
            NavCheckOutcome.preConditionError objName
          else
            NavCheckOutcome.proceedToPlanning
    else NavCheckOutcome.proceedToPlanning
  else NavCheckOutcome.proceedToPlanning

/-! ## Toggle planning-failure check (BehaviorActionPrimitives._toggle)

The source raises a PLANNING_ERROR when
  pre_toggle_path is None or len(pre_toggle_path) == 0
  or toggle_interaction_path is None
  or (len(toggle_interaction_path) == 0 and pre_toggling_distance != 0). -/

/-- The constant pre_toggling_distance = 0.0 set inside _toggle. -/
def pre_toggling_distance : ℚ := 0

/-- Embedding of the raise condition at lines 856-866 of _toggle: true means
an ActionPrimitiveError with reason PLANNING_ERROR is raised. -/
def toggle_plan_raises (prePath interPath : Option (List (List ℚ))) (preDist : ℚ) : Bool :=
  prePath.isNone || (prePath.getD []).isEmpty || interPath.isNone ||
    ((interPath.getD []).isEmpty && decide (preDist ≠ 0))

/-! ## Pick dispatch prologue (BehaviorActionPrimitives._pick, lines 605-628)

The source first reads _get_obj_in_hand(); when it is not None, the whole
planning-and-grasping block is skipped and the primitive falls through to the
final loop that yields 5 still actions.  Only when the hand query returns None
and robot.is_grasping() is TRUE does the warning branch (one yielded action)
or the PRE_CONDITION_ERROR branch run. -/

/-- Embedding of igibson.robots.manipulation_robot.IsGraspingState. -/
inductive IsGraspingState where
  | TRUE
  | FALSE
  | UNKNOWN
  deriving DecidableEq, Repr

/-- Result of the dispatch prologue of _pick. yieldsStill n warned means the
primitive finishes after yielding n commands without planning; warned records
whether the already-grasping warning was logged. -/
inductive PickDispatch where
  | yieldsStill (count : ℕ) (warned : Bool)
  | preConditionError (objName : String)
  | proceedsToPlanning
  deriving DecidableEq, Repr

/-- Embedding of the control flow of _pick up to the call of plan_ee_pick.
objInHand is the result of _get_obj_in_hand(); graspingAny and graspingTarget
are robot.is_grasping(None) and robot.is_grasping(target object). -/
def pick_precheck (objInHand : Option String)
    (graspingAny graspingTarget : IsGraspingState) (objName : String) : PickDispatch :=
  match objInHand with
  | some _ => PickDispatch.yieldsStill 5 false
  | none =>
      if graspingAny = IsGraspingState.TRUE then
        if graspingTarget = IsGraspingState.TRUE then
          PickDispatch.yieldsStill 1 true
        else
          PickDispatch.preConditionError objName
      else
        PickDispatch.proceedsToPlanning

/-! ## Pull and push primitives (BehaviorActionPrimitives._pull and _push)

The executing code sets the target object's joint_0 position directly
(upper limit minus 0.1 for pull, lower limit for push) and then yields the
still action five times, stepping the simulator after each yield.  The full
path-planned variants are commented out in the source. -/

/-- Observable events of the pull and push primitives. -/
inductive PrimEvent where
  | setJointPos (jointName : String) (pos : ℚ)
  | yieldStillAction
  | simulatorStep
  | plannerCall
  deriving DecidableEq, Repr

/-- Embedding of _pull: read joint_0 limits, set its position to the upper
limit minus 0.1, then yield the still action and step the simulator 5 times. -/
def pull_trace (lowerLimit upperLimit : ℚ) : List PrimEvent :=
  PrimEvent.setJointPos "joint_0" (upperLimit - 1 / 10) ::
    (List.replicate 5 [PrimEvent.yieldStillAction, PrimEvent.simulatorStep]).flatten

/-- Embedding of _push: read joint_0 limits, set its position to the lower
limit, then yield the still action and step the simulator 5 times. -/
def push_trace (lowerLimit upperLimit : ℚ) : List PrimEvent :=
  PrimEvent.setJointPos "joint_0" lowerLimit ::
    (List.replicate 5 [PrimEvent.yieldStillAction, PrimEvent.simulatorStep]).flatten

/-! ## Primitive dispatcher (BehaviorActionPrimitives.apply and B1KActionPrimitive) -/

/-- Embedding of the B1KActionPrimitive enum: the keys of controller_functions. -/
inductive PrimitiveTag where
  | navigateTo
  | pick
  | place
  | toggle
  | pull
  | push
  | pullOpen
  | dummy
  deriving DecidableEq, Repr

/-- Embedding of the controller_functions table built in __init__: it maps the
integer values of B1KActionPrimitive (0-6 and 10) to handler routines. -/
def controller_functions (skillId : ℕ) : Option PrimitiveTag :=
  if skillId = 0 then some PrimitiveTag.navigateTo
  else if skillId = 1 then some PrimitiveTag.pick
  else if skillId = 2 then some PrimitiveTag.place
  else if skillId = 3 then some PrimitiveTag.toggle
  else if skillId = 4 then some PrimitiveTag.pull
  else if skillId = 5 then some PrimitiveTag.push
  else if skillId = 6 then some PrimitiveTag.pullOpen
  else if skillId = 10 then some PrimitiveTag.dummy
  else none

/-- Result of apply: which handler is invoked and with which object name, or a
Python lookup error (IndexError on action_list or KeyError on the table). -/
inductive ApplyResult where
  | dispatched (tag : PrimitiveTag) (objectName : Option String)
  | lookupError
  deriving DecidableEq, Repr

/-- Embedding of BehaviorActionPrimitives.apply: action_index 10 short-circuits
to _dummy without touching action_list; otherwise the entry's skill id selects
the handler, called with the entry's object name. -/
def apply (actionList : List (ℕ × String)) (actionIndex : ℕ) : ApplyResult :=
  if actionIndex = 10 then ApplyResult.dispatched PrimitiveTag.dummy none
  else
    match actionList[actionIndex]? with
    | none => ApplyResult.lookupError
    | some pair =>
        match controller_functions pair.1 with
        | none => ApplyResult.lookupError
        | some tag => ApplyResult.dispatched tag (some pair.2)

end BDAP

/-! # Theorems -/

open BDAP

/-- C1 counterexample: an object last seen at the origin and now at
(0.2, -0.2, 0) lies at Euclidean distance sqrt(0.08) > 0.1 from its last
observed position, yet the dispatch proceeds to base planning instead of
raising a PreConditionError, because the source compares the absolute value
of the sum of the componentwise differences (here 0) with the threshold. -/
theorem C1_distance_metric_counterexample :
    distSq (0, 0, 0) ((1 : ℚ) / 5, -(1 : ℚ) / 5, 0) > moved_distance_threshold ^ 2 ∧
    navigate_pose_check true "putting_away_Halloween_decorations" "pumpkin.n.02_1"
        (some (0, 0, 0)) ((1 : ℚ) / 5, -(1 : ℚ) / 5, 0) =
      NavCheckOutcome.proceedToPlanning := by
  constructor
  · norm_num [distSq, moved_distance_threshold]
  · norm_num [navigate_pose_check, moved_distance, moved_distance_threshold]

/-- C1 amended: for a pose-checked object (pose check on, Halloween task, one
of the two pumpkins) with a recorded initial position, the dispatch raises a
PreConditionError carrying the object name, without reaching the base planner,
exactly when the absolute value of the sum of the componentwise differences
between the recorded and the current position exceeds the threshold 0.1;
otherwise control proceeds to base planning. -/
theorem C1_nav_pose_check (objName : String) (p cur : Vec3)
    (h : objName = "pumpkin.n.02_1" ∨ objName = "pumpkin.n.02_2") :
    (navigate_pose_check true "putting_away_Halloween_decorations" objName
        (some p) cur = NavCheckOutcome.preConditionError objName ↔
      moved_distance p cur > moved_distance_threshold) ∧
    (moved_distance p cur ≤ moved_distance_threshold →
      navigate_pose_check true "putting_away_Halloween_decorations" objName
        (some p) cur = NavCheckOutcome.proceedToPlanning) := by
  have hname : ((objName = "pumpkin.n.02_1" : Bool) || (objName = "pumpkin.n.02_2" : Bool)) = true := by
    rcases h with h | h <;> simp [h]
  by_cases hgt : moved_distance p cur > moved_distance_threshold
  · refine ⟨⟨fun _ => hgt, fun _ => ?_⟩, fun hle => absurd hgt (not_lt.mpr hle)⟩
    simp [navigate_pose_check, hname, hgt]
  · refine ⟨⟨fun hout => ?_, fun hgt2 => absurd hgt2 hgt⟩, fun _ => ?_⟩
    · exfalso
      simp [navigate_pose_check, hname, hgt] at hout
    · simp [navigate_pose_check, hname, hgt]

/-- C1 witness: the spec's own example, last seen at the origin and now at
(0.2, 0, 0), does raise the PreConditionError. -/
theorem C1_nav_pose_check_witness :
    navigate_pose_check true "putting_away_Halloween_decorations" "pumpkin.n.02_1"
        (some (0, 0, 0)) ((1 : ℚ) / 5, 0, 0) =
      NavCheckOutcome.preConditionError "pumpkin.n.02_1" :=
  (C1_nav_pose_check "pumpkin.n.02_1" (0, 0, 0) ((1 : ℚ) / 5, 0, 0)
      (Or.inl rfl)).1.mpr (by
    have h15 : |(0 : ℚ) - 1 / 5 + (0 - 0) + (0 - 0)| = 1 / 5 := by
      rw [show (0 : ℚ) - 1 / 5 + (0 - 0) + (0 - 0) = -(1 / 5) by norm_num, abs_neg,
        abs_of_nonneg (by norm_num)]
    simp only [moved_distance, moved_distance_threshold]
    rw [h15]
    norm_num)

/-- C3 counterexample: with the pre-toggling distance 0 that _toggle hardcodes,
a planner result whose pre-approach (pre-toggle) path is empty still raises a
PlanningError, even though the interaction path is nonempty: the emptiness
exemption in the source guards the interaction path, not the pre-approach path. -/
theorem C3_empty_preapproach_counterexample :
    toggle_plan_raises (some []) (some [[1]]) pre_toggling_distance = true := by
  decide

/-- C3 amended: when the toggle primitive runs with pre-toggling distance 0,
an empty toggle interaction path is treated as valid (its emptiness check is
conditioned on the configured distance being nonzero), but an absent or empty
pre-toggle path always raises a PlanningError. -/
theorem C3_toggle_empty_path_policy (prePath interPath : Option (List (List ℚ))) :
    toggle_plan_raises prePath interPath 0 =
      (prePath.isNone || (prePath.getD []).isEmpty || interPath.isNone) := by
  simp [toggle_plan_raises]

/-- C5 counterexample: a pick issued while the in-hand query already returns
the requested object skips the planning block and yields five still actions
without a warning, not a single action with a warning as the claim states. -/
theorem C5_already_grasping_counterexample :
    pick_precheck (some "pumpkin.n.02_1") IsGraspingState.TRUE IsGraspingState.TRUE
        "pumpkin.n.02_1" = PickDispatch.yieldsStill 5 false ∧
    pick_precheck (some "pumpkin.n.02_1") IsGraspingState.TRUE IsGraspingState.TRUE
        "pumpkin.n.02_1" ≠ PickDispatch.yieldsStill 1 true := by
  decide

/-- C5 amended: if the in-hand query returns any object, the pick yields five
still actions and returns without planning, warning or error; if the in-hand
query returns none but the robot reports grasping and it is grasping the
requested object, the pick warns and yields a single action without planning;
if the robot reports grasping but not the requested object, the pick raises a
PreConditionError carrying the object name; otherwise planning proceeds. -/
theorem C5_pick_precheck (objInHand : Option String)
    (graspingAny graspingTarget : IsGraspingState) (objName : String) :
    (∀ o, objInHand = some o →
      pick_precheck objInHand graspingAny graspingTarget objName =
        PickDispatch.yieldsStill 5 false) ∧
    (objInHand = none → graspingAny = IsGraspingState.TRUE →
      graspingTarget = IsGraspingState.TRUE →
      pick_precheck objInHand graspingAny graspingTarget objName =
        PickDispatch.yieldsStill 1 true) ∧
    (objInHand = none → graspingAny = IsGraspingState.TRUE →
      graspingTarget ≠ IsGraspingState.TRUE →
      pick_precheck objInHand graspingAny graspingTarget objName =
        PickDispatch.preConditionError objName) ∧
    (objInHand = none → graspingAny ≠ IsGraspingState.TRUE →
      pick_precheck objInHand graspingAny graspingTarget objName =
        PickDispatch.proceedsToPlanning) := by
  refine ⟨fun o ho => ?_, fun h1 h2 h3 => ?_, fun h1 h2 h3 => ?_, fun h1 h2 => ?_⟩
  · simp [pick_precheck, ho]
  · simp [pick_precheck, h1, h2, h3]
  · simp [pick_precheck, h1, h2, h3]
  · simp [pick_precheck, h1, h2]

/-- C5 witness: the warning branch at concrete inputs, obtained from the
amended theorem. -/
theorem C5_pick_precheck_witness :
    pick_precheck none IsGraspingState.TRUE IsGraspingState.TRUE "printer.n.03_1" =
      PickDispatch.yieldsStill 1 true :=
  (C5_pick_precheck none IsGraspingState.TRUE IsGraspingState.TRUE
      "printer.n.03_1").2.1 rfl rfl rfl

/-- C6: the pull primitive first sets joint_0 directly to its upper limit
minus 0.1 and the push primitive first sets joint_0 directly to its lower
limit; neither trace ever calls the motion planner, and each then yields
exactly 5 still actions, each followed by a simulator step. -/
theorem C6_pull_push_set_joint (lowerLimit upperLimit : ℚ) :
    (pull_trace lowerLimit upperLimit).head? =
      some (PrimEvent.setJointPos "joint_0" (upperLimit - 1 / 10)) ∧
    (push_trace lowerLimit upperLimit).head? =
      some (PrimEvent.setJointPos "joint_0" lowerLimit) ∧
    PrimEvent.plannerCall ∉ pull_trace lowerLimit upperLimit ∧
    PrimEvent.plannerCall ∉ push_trace lowerLimit upperLimit ∧
    (pull_trace lowerLimit upperLimit).count PrimEvent.yieldStillAction = 5 ∧
    (pull_trace lowerLimit upperLimit).count PrimEvent.simulatorStep = 5 ∧
    (push_trace lowerLimit upperLimit).count PrimEvent.yieldStillAction = 5 ∧
    (push_trace lowerLimit upperLimit).count PrimEvent.simulatorStep = 5 ∧
    pull_trace lowerLimit upperLimit =
      PrimEvent.setJointPos "joint_0" (upperLimit - 1 / 10) ::
        (List.replicate 5 [PrimEvent.yieldStillAction, PrimEvent.simulatorStep]).flatten := by
  refine ⟨rfl, rfl, ?_, ?_, ?_, ?_, ?_, ?_, rfl⟩ <;>
    simp [pull_trace, push_trace, List.count_cons, List.count_eq_zero]

/-- C9: action index 10 dispatches the dummy primitive without consulting the
configured action list (so it is accepted even when the list has fewer than 11
entries), and any other index dispatches the controller function of the skill
id stored in that entry of the action list, applied to the entry's object name. -/
theorem C9_apply_dispatch (actionList : List (ℕ × String)) (i : ℕ)
    (pair : ℕ × String) (tag : PrimitiveTag) :
    (BDAP.apply actionList 10 = ApplyResult.dispatched PrimitiveTag.dummy none) ∧
    (i ≠ 10 → actionList[i]? = some pair → controller_functions pair.1 = some tag →
      BDAP.apply actionList i = ApplyResult.dispatched tag (some pair.2)) := by
  constructor
  · simp [BDAP.apply]
  · intro hi hget htag
    simp [BDAP.apply, hi, hget, htag]

/-- C9 witness: on a one-entry action list, index 10 still runs the dummy
primitive and index 0 dispatches the navigate handler with the stored name. -/
theorem C9_apply_dispatch_witness :
    BDAP.apply [(0, "printer.n.03_1")] 10 =
      ApplyResult.dispatched PrimitiveTag.dummy none ∧
    BDAP.apply [(0, "printer.n.03_1")] 0 =
      ApplyResult.dispatched PrimitiveTag.navigateTo (some "printer.n.03_1") :=
  ⟨(C9_apply_dispatch [(0, "printer.n.03_1")] 0 (0, "printer.n.03_1")
      PrimitiveTag.navigateTo).1,
   (C9_apply_dispatch [(0, "printer.n.03_1")] 0 (0, "printer.n.03_1")
      PrimitiveTag.navigateTo).2 (by decide) (by decide) (by decide)⟩

namespace BDAP

/-! ## Geometry for the pick target position (BehaviorActionPrimitives._pick, lines 630-666) -/

/-- Dot product of two rational 3-vectors. -/
def dot3 (a b : Vec3) : ℚ :=
  a.1 * b.1 + a.2.1 * b.2.1 + a.2.2 * b.2.2

/-- Rows of a 3x3 rational matrix. -/
def Mat3 : Type := Vec3 × Vec3 × Vec3

/-- Matrix-vector product, the embedding of mat @ np.array(params[:3]). -/
def matVec (m : Mat3) (v : Vec3) : Vec3 :=
  (dot3 m.1 v, dot3 m.2.1 v, dot3 m.2.2 v)

/-- Modelled from the spec: quat2mat from igibson.utils.transform_utils is
imported by the source but its file is not part of the source tree.  Section
4.1 of the specification states that offsets expressed in the target object's
local frame are rotated into world frame by the object's current orientation,
which is kept normalized.  This is the standard rotation matrix of a unit
quaternion given in XYZW order; for the identity quaternion (0, 0, 0, 1) it is
the identity matrix. -/
def quat2mat (q : Quat) : Mat3 :=
  let x := q.1
  let y := q.2.1
  let z := q.2.2.1
  let w := q.2.2.2
  ((1 - 2 * (y ^ 2 + z ^ 2), 2 * (x * y - z * w), 2 * (x * z + y * w)),
   (2 * (x * y + z * w), 1 - 2 * (x ^ 2 + z ^ 2), 2 * (y * z - x * w)),
   (2 * (x * z - y * w), 2 * (y * z + x * w), 1 - 2 * (x ^ 2 + y ^ 2)))

/-- The default hit normal self.default_direction = (0, 0, -1). -/
def default_direction : Vec3 := (0, 0, -1)

/-- Embedding of the target pick position computed by _pick: the local-frame
offset params[:3] is rotated by the object's orientation matrix and added to
the object's world position; when more than three parameters are supplied the
finger length is subtracted along the picking direction. -/
def pick_place_pos (objPos : Vec3) (objRotXYZW : Quat) (params : List ℚ)
    (fingerLength : ℚ) : Vec3 :=
  let vector := matVec (quat2mat objRotXYZW)
    (params.getD 0 0, params.getD 1 0, params.getD 2 0)
  let p : Vec3 := (objPos.1 + vector.1, objPos.2.1 + vector.2.1, objPos.2.2 + vector.2.2)
  if params.length > 3 then
    (p.1 - default_direction.1 * fingerLength,
     p.2.1 - default_direction.2.1 * fingerLength,
     p.2.2 - default_direction.2.2 * fingerLength)
  else p

/-! ## Still action and grasp execution

The robot's full-body action vector is modelled as a function from action
index to rational value; the configuration lists the controllers with their
action and joint index groups, mirroring robot.controllers,
robot.controller_action_idx and robot.controller_joint_idx. -/

/-- Configuration of one controller, as inspected by _get_still_action. -/
structure ControllerCfg where
  isJoint : Bool
  controlTypeIsPosition : Bool
  useDeltaCommands : Bool
  actionIdx : List ℕ
  jointIdx : List ℕ

/-- The parts of the robot the executor touches: the controller table and the
action-index groups of the active arm and its gripper. -/
structure RobotCfg where
  controllers : List ControllerCfg
  armActionIdx : List ℕ
  gripperActionIdx : List ℕ

/-- Numpy fancy assignment a[idxs] = vals: the entry at idxs[p] becomes
vals p; entries outside idxs are unchanged. -/
def setVals (a : ℕ → ℚ) (idxs : List ℕ) (vals : ℕ → ℚ) : ℕ → ℚ :=
  fun i =>
    match idxs.findIdx? (fun j => j == i) with
    | some p => vals p
    | none => a i

/-- Numpy assignment a[idxs] = v with a scalar v. -/
def setConstIdx (a : ℕ → ℚ) (idxs : List ℕ) (v : ℚ) : ℕ → ℚ :=
  fun i => if i ∈ idxs then v else a i

/-- Assignment of a single entry, a[j] = v. -/
def setAt (a : ℕ → ℚ) (j : ℕ) (v : ℚ) : ℕ → ℚ :=
  fun i => if i = j then v else a i

/-- Embedding of _get_still_action: starting from np.zeros, every position
JointController without delta commands receives the current joint positions of
its joints on its action indices; while is_grasping is set, the gripper group
is overridden with the closing command -1. -/
def get_still_action (cfg : RobotCfg) (jointPositions : ℕ → ℚ)
    (isGrasping : Bool) : ℕ → ℚ :=
  let base := cfg.controllers.foldl
    (fun a c =>
      if c.isJoint && c.controlTypeIsPosition && !c.useDeltaCommands then
        setVals a c.actionIdx (fun p => jointPositions (c.jointIdx.getD p 0))
      else a)
    (fun _ => 0)
  if isGrasping then setConstIdx base cfg.gripperActionIdx (-1) else base

/-- How _execute_grasp and _execute_ungrasp end: either the held-object check
fails with an EXECUTION_ERROR, or the is_grasping flag is set to the given
value. -/
inductive GraspEnd where
  | executionError
  | success (isGrasping : Bool)
  deriving DecidableEq, Repr

/-- The step count grasping_steps = 5 if self.fast_execution else 9. -/
def grasping_steps (fastExecution : Bool) : ℕ :=
  if fastExecution then 5 else 9

/-- Embedding of _execute_grasp: the still action with the first gripper
action index forced to the closing command -1 is yielded grasping_steps
times; afterwards the in-hand query decides between an EXECUTION_ERROR and
setting is_grasping to true. -/
def execute_grasp (cfg : RobotCfg) (jointPositions : ℕ → ℚ)
    (isGrasping0 fastExecution : Bool) (heldAfter : Option String) :
    List (ℕ → ℚ) × GraspEnd :=
  let action := setAt (get_still_action cfg jointPositions isGrasping0)
    (cfg.gripperActionIdx.getD 0 0) (-1)
  (List.replicate (grasping_steps fastExecution) action,
   match heldAfter with
   | none => GraspEnd.executionError
   | some _ => GraspEnd.success true)

/-- Embedding of _execute_ungrasp: symmetric to _execute_grasp with the
opening command 1; an object still in hand afterwards is an EXECUTION_ERROR,
otherwise is_grasping becomes false. -/
def execute_ungrasp (cfg : RobotCfg) (jointPositions : ℕ → ℚ)
    (isGrasping0 fastExecution : Bool) (heldAfter : Option String) :
    List (ℕ → ℚ) × GraspEnd :=
  let action := setAt (get_still_action cfg jointPositions isGrasping0)
    (cfg.gripperActionIdx.getD 0 0) 1
  (List.replicate (grasping_steps fastExecution) action,
   match heldAfter with
   | none => GraspEnd.success false
   | some _ => GraspEnd.executionError)

end BDAP

/-- C7: for an object at world position (1, 0, 0) with identity orientation
and pick offset parameters (0, 0, 0.2), the target pick position computed by
_pick is exactly (1, 0, 0.2); with only three parameters no finger-length
compensation is applied, whatever the finger length is. -/
theorem C7_pick_target_position (fingerLength : ℚ) :
    pick_place_pos (1, 0, 0) (0, 0, 0, 1) [0, 0, 1 / 5] fingerLength =
      ((1 : ℚ), (0 : ℚ), (1 : ℚ) / 5) := by
  norm_num [pick_place_pos, quat2mat, matVec, dot3]

/-- C4: the grasp routine yields the closing gripper command (value -1 on the
gripper's first action index) for exactly 9 steps, or 5 in fast-execution
mode, and then raises an ExecutionError exactly when no object is held after
the close attempt, setting is_grasping to true otherwise; the ungrasp routine
is symmetric (command 1, error exactly when an object is still held, flag set
to false on success). -/
theorem C4_grasp_ungrasp (cfg : RobotCfg) (jointPositions : ℕ → ℚ)
    (isGrasping0 fastExecution : Bool) (heldAfter : Option String) :
    ((execute_grasp cfg jointPositions isGrasping0 fastExecution heldAfter).1.length =
      if fastExecution then 5 else 9) ∧
    ((execute_grasp cfg jointPositions isGrasping0 fastExecution heldAfter).2 =
        GraspEnd.executionError ↔ heldAfter = none) ∧
    ((execute_grasp cfg jointPositions isGrasping0 fastExecution heldAfter).2 =
        GraspEnd.success true ↔ heldAfter ≠ none) ∧
    (∀ j, j < (execute_grasp cfg jointPositions isGrasping0 fastExecution heldAfter).1.length →
      ((execute_grasp cfg jointPositions isGrasping0 fastExecution heldAfter).1.getD j
          (fun _ => 0)) (cfg.gripperActionIdx.getD 0 0) = -1) ∧
    ((execute_ungrasp cfg jointPositions isGrasping0 fastExecution heldAfter).1.length =
      if fastExecution then 5 else 9) ∧
    ((execute_ungrasp cfg jointPositions isGrasping0 fastExecution heldAfter).2 =
        GraspEnd.executionError ↔ heldAfter ≠ none) ∧
    ((execute_ungrasp cfg jointPositions isGrasping0 fastExecution heldAfter).2 =
        GraspEnd.success false ↔ heldAfter = none) ∧
    (∀ j, j < (execute_ungrasp cfg jointPositions isGrasping0 fastExecution heldAfter).1.length →
      ((execute_ungrasp cfg jointPositions isGrasping0 fastExecution heldAfter).1.getD j
          (fun _ => 0)) (cfg.gripperActionIdx.getD 0 0) = 1) := by
  refine ⟨by simp [execute_grasp, grasping_steps], ?_, ?_, ?_,
    by simp [execute_ungrasp, grasping_steps], ?_, ?_, ?_⟩
  · cases heldAfter <;> simp [execute_grasp]
  · cases heldAfter <;> simp [execute_grasp]
  · intro j hj
    simp only [execute_grasp, List.length_replicate] at hj
    simp [execute_grasp, List.getD, List.getElem?_replicate, hj, setAt]
  · cases heldAfter <;> simp [execute_ungrasp]
  · cases heldAfter <;> simp [execute_ungrasp]
  · intro j hj
    simp only [execute_ungrasp, List.length_replicate] at hj
    simp [execute_ungrasp, List.getD, List.getElem?_replicate, hj, setAt]

/-- C4 witness: in fast-execution mode with an object held after closing, the
grasp yields 5 commands whose gripper entry is the closing command, and ends
with is_grasping set to true. -/
theorem C4_grasp_ungrasp_witness :
    (execute_grasp ⟨[], [], [2]⟩ (fun _ => 0) false true (some "pumpkin.n.02_1")).1.length = 5 ∧
    (execute_grasp ⟨[], [], [2]⟩ (fun _ => 0) false true (some "pumpkin.n.02_1")).2 =
      GraspEnd.success true ∧
    ((execute_grasp ⟨[], [], [2]⟩ (fun _ => 0) false true (some "pumpkin.n.02_1")).1.getD 0
        (fun _ => 0)) 2 = -1 :=
  ⟨(C4_grasp_ungrasp ⟨[], [], [2]⟩ (fun _ => 0) false true (some "pumpkin.n.02_1")).1,
   (C4_grasp_ungrasp ⟨[], [], [2]⟩ (fun _ => 0) false true (some "pumpkin.n.02_1")).2.2.1.mpr
     (by decide),
   (C4_grasp_ungrasp ⟨[], [], [2]⟩ (fun _ => 0) false true
       (some "pumpkin.n.02_1")).2.2.2.1 0 (by decide)⟩

namespace BDAP

/-! ## Path executor (BehaviorActionPrimitives._execute_ee_path, lines 418-443)

The generator is modelled as a function returning the list of yielded
full-body commands together with an outcome.  The contact oracle
robot._find_gripper_contacts is modelled as a Boolean function of the number
of simulation ticks elapsed, one tick per drained command. -/

/-- How _execute_ee_path ends: the path was fully streamed, the loop returned
early on a detected contact, or the EXECUTION_ERROR for a required contact
that never happened was raised. -/
inductive EEOutcome where
  | completed
  | stoppedOnContact
  | noContactError
  deriving DecidableEq, Repr

/-- One iteration's in-place update of full_body_action: the active arm's
action indices receive the waypoint and, while grasping, the gripper group is
forced to the closing command -1. -/
def eeStep (cfg : RobotCfg) (whileGrasping : Bool) (fb : ℕ → ℚ) (w : List ℚ) : ℕ → ℚ :=
  let fb1 := setVals fb cfg.armActionIdx (fun p => w.getD p 0)
  if whileGrasping then setConstIdx fb1 cfg.gripperActionIdx (-1) else fb1

/-- The loop of _execute_ee_path.  full_body_action is created once from the
still action and mutated in place; the mutated array is yielded and carried to
the next iteration. -/
def execute_ee_path_loop (cfg : RobotCfg) (contact : ℕ → Bool)
    (stopOnContact whileGrasping : Bool) :
    List (List ℚ) → (ℕ → ℚ) → ℕ → List (ℕ → ℚ) × EEOutcome
  | [], _fb, _t =>
      ([], if stopOnContact then EEOutcome.noContactError else EEOutcome.completed)
  | w :: rest, fb, t =>
      if stopOnContact && contact t then ([], EEOutcome.stoppedOnContact)
      else
        let r := execute_ee_path_loop cfg contact stopOnContact whileGrasping rest
          (eeStep cfg whileGrasping fb w) (t + 1)
        (eeStep cfg whileGrasping fb w :: r.1, r.2)

/-- Unfolding equation for a loop iteration whose contact test is negative. -/
theorem ee_loop_cons_no_contact (cfg : RobotCfg) (contact : ℕ → Bool)
    (stopOnContact whileGrasping : Bool) (w : List ℚ) (rest : List (List ℚ))
    (fb : ℕ → ℚ) (t : ℕ) (h : (stopOnContact && contact t) = false) :
    execute_ee_path_loop cfg contact stopOnContact whileGrasping (w :: rest) fb t =
      (eeStep cfg whileGrasping fb w ::
        (execute_ee_path_loop cfg contact stopOnContact whileGrasping rest
          (eeStep cfg whileGrasping fb w) (t + 1)).1,
       (execute_ee_path_loop cfg contact stopOnContact whileGrasping rest
          (eeStep cfg whileGrasping fb w) (t + 1)).2) := by
  simp [execute_ee_path_loop, h]

/-- Embedding of _execute_ee_path: the initial full-body command is the still
action, the path is reversed when reverse_path is set, and the loop starts at
tick 0.  The ignore_failure parameter is accepted and unused, as in the
source. -/
def execute_ee_path (cfg : RobotCfg) (jointPositions : ℕ → ℚ) (isGrasping : Bool)
    (path : List (List ℚ))
    (ignoreFailure stopOnContact reversePath whileGrasping : Bool)
    (contact : ℕ → Bool) : List (ℕ → ℚ) × EEOutcome :=
  execute_ee_path_loop cfg contact stopOnContact whileGrasping
    (if reversePath then path.reverse else path)
    (get_still_action cfg jointPositions isGrasping) 0

/-- With stop-on-contact set, if the contact oracle is false for the first k
ticks and true at tick k, and the path still has a waypoint left at that
point, the loop returns early on contact after emitting exactly k commands. -/
theorem ee_loop_stops_at_first_contact (cfg : RobotCfg) (contact : ℕ → Bool)
    (wg : Bool) :
    ∀ (k : ℕ) (path : List (List ℚ)) (fb : ℕ → ℚ) (t : ℕ),
      (∀ j, j < k → contact (t + j) = false) → contact (t + k) = true →
      k < path.length →
      (execute_ee_path_loop cfg contact true wg path fb t).2 =
          EEOutcome.stoppedOnContact ∧
      (execute_ee_path_loop cfg contact true wg path fb t).1.length = k := by
  intro k
  induction k with
  | zero =>
      intro path fb t hlt hck hkp
      match path, hkp with
      | w :: rest, _ =>
          have h0 : contact t = true := by simpa using hck
          simp [execute_ee_path_loop, h0]
  | succ k ih =>
      intro path fb t hlt hck hkp
      match path, hkp with
      | w :: rest, hkp =>
          have h0 : contact t = false := by simpa using hlt 0 (Nat.succ_pos k)
          have hrest :
              ∀ j, j < k → contact (t + 1 + j) = false := by
            intro j hj
            have : t + 1 + j = t + (j + 1) := by omega
            rw [this]
            exact hlt (j + 1) (by omega)
          have hck' : contact (t + 1 + k) = true := by
            have : t + 1 + k = t + (k + 1) := by omega
            rw [this]
            exact hck
          have hlen : k < rest.length := by
            simpa using Nat.lt_of_succ_lt_succ (by simpa using hkp)
          have ihr := ih rest (eeStep cfg wg fb w) (t + 1) hrest hck' hlen
          rw [ee_loop_cons_no_contact cfg contact true wg w rest fb t (by simp [h0])]
          exact ⟨ihr.1, by simp [ihr.2]⟩

end BDAP

/-- C2: for an interaction path of n waypoints executed with stop-on-contact
requested, if a gripper contact is first detected when waypoint k+1 (k < n)
is about to be emitted - the oracle is false for the first k ticks and true at
tick k - the executor yields exactly k full-body commands and then returns
from the interacting phase on the contact, raising no error and never
emitting waypoint k+1. -/
theorem C2_contact_truncates_path (cfg : RobotCfg) (jointPositions : ℕ → ℚ)
    (isGrasping : Bool) (path : List (List ℚ)) (ignoreFailure whileGrasping : Bool)
    (contact : ℕ → Bool) (k : ℕ)
    (hfirst : ∀ j, j < k → contact j = false) (hk : contact k = true)
    (hkn : k < path.length) :
    (execute_ee_path cfg jointPositions isGrasping path ignoreFailure true false
        whileGrasping contact).1.length = k ∧
    (execute_ee_path cfg jointPositions isGrasping path ignoreFailure true false
        whileGrasping contact).2 = EEOutcome.stoppedOnContact := by
  have h := ee_loop_stops_at_first_contact cfg contact whileGrasping k path
    (get_still_action cfg jointPositions isGrasping) 0
    (by simpa using hfirst) (by simpa using hk) hkn
  exact ⟨h.2, h.1⟩

/-- C2 witness: on a three-waypoint path with the first contact at tick 2, the
executor emits exactly two commands and stops on contact. -/
theorem C2_contact_truncates_path_witness :
    (execute_ee_path ⟨[], [0], [1]⟩ (fun _ => 0) false [[1], [2], [3]] false true false
        false (fun t => 2 ≤ t)).1.length = 2 ∧
    (execute_ee_path ⟨[], [0], [1]⟩ (fun _ => 0) false [[1], [2], [3]] false true false
        false (fun t => 2 ≤ t)).2 = EEOutcome.stoppedOnContact :=
  C2_contact_truncates_path ⟨[], [0], [1]⟩ (fun _ => 0) false [[1], [2], [3]] false
    false (fun t => 2 ≤ t) 2 (by decide) (by decide) (by decide)

namespace BDAP

/-- Numpy fancy assignment leaves entries outside the index set unchanged. -/
theorem setVals_not_mem (a : ℕ → ℚ) (idxs : List ℕ) (vals : ℕ → ℚ) (i : ℕ)
    (h : i ∉ idxs) : setVals a idxs vals i = a i := by
  have hnone : idxs.findIdx? (fun j => j == i) = none := by
    rw [List.findIdx?_eq_none_iff]
    intro x hx
    simp only [beq_eq_false_iff_ne, ne_eq]
    intro hxi
    exact h (hxi ▸ hx)
  simp [setVals, hnone]

/-- A command produced by an iteration agrees with the carried array outside
the arm group and, while grasping, outside the gripper group. -/
theorem eeStep_frame (cfg : RobotCfg) (whileGrasping : Bool) (fb : ℕ → ℚ)
    (w : List ℚ) (i : ℕ) (harm : i ∉ cfg.armActionIdx)
    (hgrip : whileGrasping = true → i ∉ cfg.gripperActionIdx) :
    eeStep cfg whileGrasping fb w i = fb i := by
  cases hwg : whileGrasping with
  | false => simp [eeStep, hwg, setVals_not_mem _ _ _ _ harm]
  | true =>
      simp [eeStep, hwg, setConstIdx, hgrip hwg, setVals_not_mem _ _ _ _ harm]

/-- Every command the loop emits agrees, outside the active arm's action
indices (and, while grasping, outside the gripper indices), with any reference
array the carried full-body action agrees with there. -/
theorem ee_loop_frame (cfg : RobotCfg) (contact : ℕ → Bool)
    (stopOnContact whileGrasping : Bool) (still : ℕ → ℚ) :
    ∀ (path : List (List ℚ)) (fb : ℕ → ℚ) (t : ℕ),
      (∀ i, i ∉ cfg.armActionIdx →
        (whileGrasping = true → i ∉ cfg.gripperActionIdx) → fb i = still i) →
      ∀ j, j < (execute_ee_path_loop cfg contact stopOnContact whileGrasping
          path fb t).1.length →
      ∀ i, i ∉ cfg.armActionIdx →
        (whileGrasping = true → i ∉ cfg.gripperActionIdx) →
        ((execute_ee_path_loop cfg contact stopOnContact whileGrasping
            path fb t).1.getD j (fun _ => 0)) i = still i := by
  intro path
  induction path with
  | nil =>
      intro fb t _hfb j hj i _ _
      simp [execute_ee_path_loop] at hj
  | cons w rest ih =>
      intro fb t hfb j hj i harm hgrip
      by_cases hc : (stopOnContact && contact t) = true
      · simp [execute_ee_path_loop, hc] at hj
      · have hc' : (stopOnContact && contact t) = false := by
          simpa using hc
        have hstep : ∀ i, i ∉ cfg.armActionIdx →
            (whileGrasping = true → i ∉ cfg.gripperActionIdx) →
            eeStep cfg whileGrasping fb w i = still i := by
          intro i hi1 hi2
          rw [eeStep_frame cfg whileGrasping fb w i hi1 hi2]
          exact hfb i hi1 hi2
        rw [ee_loop_cons_no_contact cfg contact stopOnContact whileGrasping w rest fb t hc']
        rw [ee_loop_cons_no_contact cfg contact stopOnContact whileGrasping w rest fb t hc'] at hj
        match j with
        | 0 => exact hstep i harm hgrip
        | j' + 1 =>
            have hj' : j' < (execute_ee_path_loop cfg contact stopOnContact whileGrasping
                rest (eeStep cfg whileGrasping fb w) (t + 1)).1.length := by
              simpa using hj
            simpa using ih (eeStep cfg whileGrasping fb w) (t + 1) hstep j' hj' i harm hgrip

end BDAP

/-- C8: every full-body command streamed by the path executor holds the still
action's value - the agent's recorded position command - on every action index
outside the active arm's controller group; while grasping, only the gripper
group may additionally differ.  This holds for any path, direction, contact
oracle and stop-on-contact setting. -/
theorem C8_commands_hold_still_outside_arm (cfg : RobotCfg)
    (jointPositions : ℕ → ℚ) (isGrasping : Bool) (path : List (List ℚ))
    (ignoreFailure stopOnContact reversePath whileGrasping : Bool)
    (contact : ℕ → Bool) (j : ℕ)
    (hj : j < (execute_ee_path cfg jointPositions isGrasping path ignoreFailure
        stopOnContact reversePath whileGrasping contact).1.length)
    (i : ℕ) (harm : i ∉ cfg.armActionIdx)
    (hgrip : whileGrasping = true → i ∉ cfg.gripperActionIdx) :
    ((execute_ee_path cfg jointPositions isGrasping path ignoreFailure
        stopOnContact reversePath whileGrasping contact).1.getD j (fun _ => 0)) i =
      get_still_action cfg jointPositions isGrasping i :=
  ee_loop_frame cfg contact stopOnContact whileGrasping
    (get_still_action cfg jointPositions isGrasping)
    (if reversePath then path.reverse else path)
    (get_still_action cfg jointPositions isGrasping) 0
    (fun _ _ _ => rfl) j hj i harm hgrip

/-- C8 witness: on a one-waypoint path with the arm on index 0 and the gripper
on index 1, the emitted command agrees with the still action at index 2. -/
theorem C8_commands_hold_still_outside_arm_witness :
    ((execute_ee_path ⟨[], [0], [1]⟩ (fun _ => 0) false [[7]] false false false false
        (fun _ => false)).1.getD 0 (fun _ => 0)) 2 =
      get_still_action ⟨[], [0], [1]⟩ (fun _ => 0) false 2 :=
  C8_commands_hold_still_outside_arm ⟨[], [0], [1]⟩ (fun _ => 0) false [[7]] false
    false false false (fun _ => false) 0 (by decide) 2 (by decide) (by decide)

namespace VRUtils

/-! ## VR button event encoding (src/omnigibson/utils/vr_utils.py)

convert_button_data_to_binary starts from a zero vector of length 28 and sets
the slot of each event tuple, found by list lookup in VR_BUTTON_COMBOS, to 1;
convert_binary_to_button_data walks the 28 slots in order and collects the
combo of every slot equal to 1. -/

/-- The fixed list of all VR button idx/press combos from vr_utils.py. -/
def VR_BUTTON_COMBOS : List (ℕ × ℕ) :=
  [(0, 0), (0, 1), (1, 0), (1, 1), (2, 0), (2, 1), (3, 0), (3, 1),
   (4, 0), (4, 1), (5, 0), (5, 1), (6, 0), (6, 1), (7, 0), (7, 1),
   (31, 0), (31, 1), (32, 0), (32, 1), (33, 0), (33, 1), (34, 0), (34, 1),
   (35, 0), (35, 1), (36, 0), (36, 1)]

/-- VR_BUTTON_COMBO_NUM = 28. -/
def VR_BUTTON_COMBO_NUM : ℕ := 28

/-- Embedding of convert_button_data_to_binary: bin_events starts as 28
zeros and each tuple's slot, located with VR_BUTTON_COMBOS.index, is set
to 1. -/
def convert_button_data_to_binary (bdata : List (ℕ × ℕ)) : List ℕ :=
  bdata.foldl (fun bin d => bin.set (VR_BUTTON_COMBOS.indexOf d) 1)
    (List.replicate VR_BUTTON_COMBO_NUM 0)

/-- Embedding of convert_binary_to_button_data: the 28 slots are scanned in
order and the combo of every slot holding 1 is appended. -/
def convert_binary_to_button_data (bin_events : List ℕ) : List (ℕ × ℕ) :=
  (List.range VR_BUTTON_COMBO_NUM).foldl
    (fun acc i =>
      if bin_events.getD i 0 = 1 then acc ++ [VR_BUTTON_COMBOS.getD i (0, 0)] else acc)
    []

/-- VR_BUTTON_COMBOS lists 28 distinct combos. -/
theorem combos_nodup : VR_BUTTON_COMBOS.Nodup := by decide

/-- VR_BUTTON_COMBOS has length VR_BUTTON_COMBO_NUM. -/
theorem combos_length : VR_BUTTON_COMBOS.length = VR_BUTTON_COMBO_NUM := by decide

/-- Every combo's index is within the 28 slots. -/
theorem combos_indexOf_lt :
    ∀ d ∈ VR_BUTTON_COMBOS, VR_BUTTON_COMBOS.indexOf d < VR_BUTTON_COMBO_NUM := by
  decide

/-- Reading back the slot of a listed combo returns the combo. -/
theorem combos_getD_indexOf :
    ∀ d ∈ VR_BUTTON_COMBOS,
      VR_BUTTON_COMBOS.getD (VR_BUTTON_COMBOS.indexOf d) (0, 0) = d := by
  decide

/-- The index of the combo stored in slot j is j. -/
theorem combos_indexOf_getD :
    ∀ j, j < VR_BUTTON_COMBO_NUM →
      VR_BUTTON_COMBOS.indexOf (VR_BUTTON_COMBOS.getD j (0, 0)) = j := by
  decide

/-- Slots hold pairwise distinct combos. -/
theorem combos_getD_inj :
    ∀ i, i < VR_BUTTON_COMBO_NUM → ∀ j, j < VR_BUTTON_COMBO_NUM →
      VR_BUTTON_COMBOS.getD i (0, 0) = VR_BUTTON_COMBOS.getD j (0, 0) → i = j := by
  decide

/-- Every slot's combo is a member of the combo list. -/
theorem combos_getD_mem :
    ∀ j, j < VR_BUTTON_COMBO_NUM →
      VR_BUTTON_COMBOS.getD j (0, 0) ∈ VR_BUTTON_COMBOS := by
  decide

/-- Reading a set list entry, stated on getD. -/
theorem getD_set (v d : ℕ) :
    ∀ (l : List ℕ) (i j : ℕ),
      (l.set i v).getD j d = if i = j ∧ j < l.length then v else l.getD j d := by
  intro l
  induction l with
  | nil => intro i j; simp [List.set]
  | cons a t ih =>
      intro i j
      match i, j with
      | 0, 0 => simp
      | 0, j' + 1 => simp
      | i' + 1, 0 => simp
      | i' + 1, j' + 1 =>
          have hiff : (i' = j' ∧ j' < t.length) ↔
              (i' + 1 = j' + 1 ∧ j' + 1 < t.length + 1) := by omega
          simp only [List.set_cons_succ, List.getD_cons_succ, List.length_cons, ih i' j']
          exact if_congr hiff rfl rfl

/-- The encoding fold preserves the vector length. -/
theorem encode_fold_length :
    ∀ (bdata : List (ℕ × ℕ)) (bin : List ℕ),
      (bdata.foldl (fun b d => b.set (VR_BUTTON_COMBOS.indexOf d) 1) bin).length =
        bin.length := by
  intro bdata
  induction bdata with
  | nil => intro bin; rfl
  | cons d rest ih =>
      intro bin
      simp only [List.foldl_cons, ih, List.length_set]

/-- Entry j of the encoding fold is 1 when slot j's combo occurs in the data
and is otherwise the original entry. -/
theorem encode_fold_getD :
    ∀ (bdata : List (ℕ × ℕ)) (bin : List ℕ),
      (∀ d ∈ bdata, d ∈ VR_BUTTON_COMBOS) → bin.length = VR_BUTTON_COMBO_NUM →
      ∀ j, j < VR_BUTTON_COMBO_NUM →
      (bdata.foldl (fun b d => b.set (VR_BUTTON_COMBOS.indexOf d) 1) bin).getD j 0 =
        if VR_BUTTON_COMBOS.getD j (0, 0) ∈ bdata then 1 else bin.getD j 0 := by
  intro bdata
  induction bdata with
  | nil =>
      intro bin _ _ j _
      simp
  | cons d rest ih =>
      intro bin hsub hlen j hj
      have hd : d ∈ VR_BUTTON_COMBOS := hsub d (List.mem_cons_self d rest)
      have hrec := ih (bin.set (VR_BUTTON_COMBOS.indexOf d) 1)
        (fun x hx => hsub x (List.mem_cons_of_mem d hx))
        (by rw [List.length_set]; exact hlen) j hj
      simp only [List.foldl_cons]
      rw [hrec, getD_set]
      by_cases hmem : VR_BUTTON_COMBOS.getD j (0, 0) ∈ rest
      · rw [if_pos hmem, if_pos (List.mem_cons_of_mem d hmem)]
      · by_cases heq : VR_BUTTON_COMBOS.getD j (0, 0) = d
        · have hidx : VR_BUTTON_COMBOS.indexOf d = j := by
            rw [← heq]
            exact combos_indexOf_getD j hj
          rw [if_neg hmem, if_pos ⟨hidx, by rw [hlen]; exact hj⟩,
            if_pos (by rw [heq]; exact List.mem_cons_self d rest)]
        · have hidx : VR_BUTTON_COMBOS.indexOf d ≠ j := by
            intro hcontra
            exact heq (by rw [← hcontra]; exact combos_getD_indexOf d hd)
          rw [if_neg hmem, if_neg (fun hand => hidx hand.1),
            if_neg (by rw [List.mem_cons]; push_neg; exact ⟨heq, hmem⟩)]

/-- A conditional-append fold is the filtered and mapped list. -/
theorem foldl_append_filter {α β : Type} (p : α → Prop) [DecidablePred p] (f : α → β) :
    ∀ (l : List α) (acc : List β),
      l.foldl (fun acc i => if p i then acc ++ [f i] else acc) acc =
        acc ++ ((l.filter fun i => decide (p i)).map f) := by
  intro l
  induction l with
  | nil => intro acc; simp
  | cons a t ih =>
      intro acc
      by_cases h : p a
      · simp [List.filter_cons, h, ih]
      · simp [List.filter_cons, h, ih]

/-- The decoder is the in-order selection of the slots holding 1. -/
theorem decode_eq (bin : List ℕ) :
    convert_binary_to_button_data bin =
      ((List.range VR_BUTTON_COMBO_NUM).filter fun i => decide (bin.getD i 0 = 1)).map
        (fun i => VR_BUTTON_COMBOS.getD i (0, 0)) := by
  simpa [convert_binary_to_button_data] using
    foldl_append_filter (fun i => bin.getD i 0 = 1)
      (fun i => VR_BUTTON_COMBOS.getD i (0, 0)) (List.range VR_BUTTON_COMBO_NUM) []

/-- Selecting a list's entries over the filtered index range is filtering the
list itself. -/
theorem filter_getD_range (q : ℕ × ℕ → Prop) [DecidablePred q] :
    ∀ (l : List (ℕ × ℕ)),
      ((List.range l.length).filter fun i => decide (q (l.getD i (0, 0)))).map
          (fun i => l.getD i (0, 0)) =
        l.filter fun x => decide (q x) := by
  intro l
  induction l with
  | nil => simp
  | cons a t ih =>
      have hcomp :
          ((fun i => decide (q ((a :: t).getD i (0, 0)))) ∘ Nat.succ) =
            (fun i => decide (q (t.getD i (0, 0)))) := by
        funext i
        rfl
      have hmap :
          ((fun i => (a :: t).getD i (0, 0)) ∘ Nat.succ) =
            (fun i => t.getD i (0, 0)) := by
        funext i
        rfl
      rw [List.length_cons, List.range_succ_eq_map]
      rw [List.filter_cons, List.filter_map, hcomp]
      rw [List.filter_cons]
      by_cases h : q a
      · rw [if_pos (by simp [h]), if_pos (by simp [h])]
        rw [List.map_cons, List.map_map, hmap, ih]
        rfl
      · rw [if_neg (by simp [h]), if_neg (by simp [h])]
        rw [List.map_map, hmap, ih]

end VRUtils

namespace VRUtils

/-- The encoder always produces a vector of length 28. -/
theorem encode_length (bdata : List (ℕ × ℕ)) :
    (convert_button_data_to_binary bdata).length = VR_BUTTON_COMBO_NUM := by
  simp only [convert_button_data_to_binary, encode_fold_length, List.length_replicate]

/-- Entry j of the encoded vector is 1 exactly when slot j's combo occurs in
the button data. -/
theorem encode_getD (bdata : List (ℕ × ℕ))
    (hsub : ∀ d ∈ bdata, d ∈ VR_BUTTON_COMBOS) (j : ℕ)
    (hj : j < VR_BUTTON_COMBO_NUM) :
    (convert_button_data_to_binary bdata).getD j 0 =
      if VR_BUTTON_COMBOS.getD j (0, 0) ∈ bdata then 1 else 0 := by
  have hrep : (List.replicate VR_BUTTON_COMBO_NUM (0 : ℕ)).length = VR_BUTTON_COMBO_NUM := by
    simp
  have h := encode_fold_getD bdata (List.replicate VR_BUTTON_COMBO_NUM 0) hsub hrep j hj
  have hz : (List.replicate VR_BUTTON_COMBO_NUM (0 : ℕ)).getD j 0 = 0 := by
    rw [List.getD_eq_getElem _ 0 (by simpa using hj)]
    simp
  simp only [convert_button_data_to_binary]
  rw [h, hz]

/-- Decoding an encoded distinct event list selects, in the fixed order of
VR_BUTTON_COMBOS, exactly the combos present in the data. -/
theorem decode_encode (bdata : List (ℕ × ℕ))
    (hsub : ∀ d ∈ bdata, d ∈ VR_BUTTON_COMBOS) :
    convert_binary_to_button_data (convert_button_data_to_binary bdata) =
      VR_BUTTON_COMBOS.filter (fun x => decide (x ∈ bdata)) := by
  rw [decode_eq]
  have hfc : ∀ i ∈ List.range VR_BUTTON_COMBO_NUM,
      (decide ((convert_button_data_to_binary bdata).getD i 0 = 1)) =
        (decide (VR_BUTTON_COMBOS.getD i (0, 0) ∈ bdata)) := by
    intro i hi
    have hi' : i < VR_BUTTON_COMBO_NUM := List.mem_range.mp hi
    rw [encode_getD bdata hsub i hi']
    by_cases hm : VR_BUTTON_COMBOS.getD i (0, 0) ∈ bdata
    · simp [hm]
    · simp [hm]
  rw [List.filter_congr hfc]
  rw [← combos_length]
  exact filter_getD_range (fun x => x ∈ bdata) VR_BUTTON_COMBOS

/-- The decoded list is a permutation of the original distinct event list. -/
theorem decode_encode_perm (bdata : List (ℕ × ℕ)) (hnd : bdata.Nodup)
    (hsub : ∀ d ∈ bdata, d ∈ VR_BUTTON_COMBOS) :
    (convert_binary_to_button_data (convert_button_data_to_binary bdata)).Perm bdata := by
  rw [decode_encode bdata hsub]
  apply (List.perm_ext_iff_of_nodup (combos_nodup.filter _) hnd).2
  intro x
  simp only [List.mem_filter, decide_eq_true_eq]
  exact ⟨fun hx => hx.2, fun hx => ⟨hsub x hx, hx⟩⟩

/-- Encoding a decoded 28-slot 0/1 vector reproduces the vector. -/
theorem encode_decode (bin : List ℕ) (hlen : bin.length = VR_BUTTON_COMBO_NUM)
    (hbits : ∀ b ∈ bin, b = 0 ∨ b = 1) :
    convert_button_data_to_binary (convert_binary_to_button_data bin) = bin := by
  have hsub : ∀ d ∈ convert_binary_to_button_data bin, d ∈ VR_BUTTON_COMBOS := by
    intro d hd
    rw [decode_eq] at hd
    rcases List.mem_map.mp hd with ⟨i, hi, hdi⟩
    have hi' : i < VR_BUTTON_COMBO_NUM := List.mem_range.mp (List.mem_filter.mp hi).1
    rw [← hdi]
    exact combos_getD_mem i hi'
  have hlen2 :
      (convert_button_data_to_binary (convert_binary_to_button_data bin)).length =
        bin.length := by
    rw [encode_length, hlen]
  apply List.ext_getElem hlen2
  intro j hj1 hj2
  have hjN : j < VR_BUTTON_COMBO_NUM := hlen ▸ hj2
  have hmemiff :
      VR_BUTTON_COMBOS.getD j (0, 0) ∈ convert_binary_to_button_data bin ↔
        bin.getD j 0 = 1 := by
    rw [decode_eq]
    constructor
    · intro hm
      rcases List.mem_map.mp hm with ⟨i, hi, hdi⟩
      rcases List.mem_filter.mp hi with ⟨hir, hib⟩
      have hi' : i < VR_BUTTON_COMBO_NUM := List.mem_range.mp hir
      have hij : i = j := combos_getD_inj i hi' j hjN hdi
      rw [← hij]
      exact of_decide_eq_true hib
    · intro h1
      exact List.mem_map.mpr
        ⟨j, List.mem_filter.mpr ⟨List.mem_range.mpr hjN, decide_eq_true h1⟩, rfl⟩
  have hgoalD :
      (convert_button_data_to_binary (convert_binary_to_button_data bin)).getD j 0 =
        bin.getD j 0 := by
    rw [encode_getD (convert_binary_to_button_data bin) hsub j hjN]
    by_cases hb : bin.getD j 0 = 1
    · rw [if_pos (hmemiff.mpr hb), hb]
    · rw [if_neg (fun hm => hb (hmemiff.mp hm))]
      have hmem : bin.getD j 0 ∈ bin := by
        rw [List.getD_eq_getElem bin 0 hj2]
        exact List.getElem_mem hj2
      rcases hbits _ hmem with h0 | h1
      · rw [h0]
      · exact absurd h1 hb
  rw [← List.getD_eq_getElem _ 0 hj1, ← List.getD_eq_getElem bin 0 hj2]
  exact hgoalD

end VRUtils

/-- C10: encoding a list of distinct button-event tuples drawn from
VR_BUTTON_COMBOS and decoding the result returns exactly the original tuples,
reordered into the fixed order of VR_BUTTON_COMBOS; conversely, encoding the
decoding of any 28-element 0/1 vector reproduces the vector, so the two
conversions are mutually inverse between subsets of the 28 combos and
28-element 0/1 vectors. -/
theorem C10_button_data_roundtrip (bdata : List (ℕ × ℕ)) (bin : List ℕ)
    (hnd : bdata.Nodup) (hsub : ∀ d ∈ bdata, d ∈ VRUtils.VR_BUTTON_COMBOS)
    (hlen : bin.length = VRUtils.VR_BUTTON_COMBO_NUM)
    (hbits : ∀ b ∈ bin, b = 0 ∨ b = 1) :
    VRUtils.convert_binary_to_button_data
        (VRUtils.convert_button_data_to_binary bdata) =
      VRUtils.VR_BUTTON_COMBOS.filter (fun x => decide (x ∈ bdata)) ∧
    (VRUtils.convert_binary_to_button_data
        (VRUtils.convert_button_data_to_binary bdata)).Perm bdata ∧
    VRUtils.convert_button_data_to_binary
        (VRUtils.convert_binary_to_button_data bin) = bin :=
  ⟨VRUtils.decode_encode bdata hsub, VRUtils.decode_encode_perm bdata hnd hsub,
   VRUtils.encode_decode bin hlen hbits⟩

/-- C10 witness: the out-of-order pair list [(1,0), (0,0)] decodes back in
combo order as [(0,0), (1,0)], a permutation of the input, and a concrete
0/1 vector with slot 5 set survives the reverse round trip. -/
theorem C10_button_data_roundtrip_witness :
    VRUtils.convert_binary_to_button_data
        (VRUtils.convert_button_data_to_binary [(1, 0), (0, 0)]) = [(0, 0), (1, 0)] ∧
    (VRUtils.convert_binary_to_button_data
        (VRUtils.convert_button_data_to_binary [(1, 0), (0, 0)])).Perm [(1, 0), (0, 0)] ∧
    VRUtils.convert_button_data_to_binary
        (VRUtils.convert_binary_to_button_data ((List.replicate 28 0).set 5 1)) =
      (List.replicate 28 0).set 5 1 :=
  ⟨(C10_button_data_roundtrip [(1, 0), (0, 0)] ((List.replicate 28 0).set 5 1)
      (by decide) (by decide) (by decide) (by decide)).1.trans (by decide),
   (C10_button_data_roundtrip [(1, 0), (0, 0)] ((List.replicate 28 0).set 5 1)
      (by decide) (by decide) (by decide) (by decide)).2.1,
   (C10_button_data_roundtrip [(1, 0), (0, 0)] ((List.replicate 28 0).set 5 1)
      (by decide) (by decide) (by decide) (by decide)).2.2⟩
